import Mathlib

/-
Shallow embedding of src/main.c of the kcgi-framework repository: a small
authentication and session gateway. The store (SQLite behind ksql) is an
external collaborator; its statements from the stmts table are embedded as
pure functions over an explicit Db state. Store access is traced with a
StoreOp list where a claim is about whether the store is touched at all.
-/

namespace KcgiFramework

/-- A user as handed to handlers: struct user in main.c holds email and id
(filled by db_user_fill from the USER column macro). -/
structure User where
  id : Int
  email : String
deriving Repr, DecidableEq

/-- A row of the user table: id, email and the stored hash column read by
STMT_USER_LOOKUP. -/
structure UserRow where
  id : Int
  email : String
  hash : String
deriving Repr, DecidableEq

/-- A row of the sess table: id, token, userid (see STMT_SESS_NEW and the
schema implied by the stmts table). -/
structure SessRow where
  id : Int
  token : Int
  userid : Int
deriving Repr, DecidableEq

/-- The store state: the user and sess tables. -/
structure Db where
  users : List UserRow
  sess : List SessRow
deriving Repr, DecidableEq

/-- One executed store statement, mirroring enum stmt; used to trace store
access. -/
inductive StoreOp where
  | sessDel (id token userid : Int)
  | sessGet (id token : Int)
  | sessNew (token userid : Int)
  | userGet (id : Int)
  | userLookup (email : String)
  | userModEmail (email : String) (id : Int)
  | userModHash (hash : String) (id : Int)
deriving Repr, DecidableEq

/-- Projection performed by db_user_fill: only id and email leave the store
layer. -/
def userOfRow (w : UserRow) : User :=
  ⟨w.id, w.email⟩

/-- STMT_USER_LOOKUP: SELECT user.id,user.email,hash FROM user WHERE email=?,
taking the first row as ksql_stmt_step does. -/
def stmt_user_lookup (db : Db) (email : String) : Option UserRow :=
  db.users.find? (fun w => w.email == email)

/-- Rows of the join of STMT_SESS_GET: SELECT user.id,user.email FROM sess
INNER JOIN user ON user.id=sess.userid WHERE sess.id=? AND sess.token=?. -/
def sess_get_rows (db : Db) (id token : Int) : List User :=
  (db.sess.filter (fun s => s.id == id && s.token == token)).filterMap
    (fun s => (db.users.find? (fun w => w.id == s.userid)).map userOfRow)

/-- STMT_SESS_GET, first row of the join (ksql_stmt_step). -/
def stmt_sess_get (db : Db) (id token : Int) : Option User :=
  (sess_get_rows db id token).head?

/-- STMT_SESS_DEL: DELETE FROM sess WHERE id=? AND token=? AND userid=?. -/
def stmt_sess_del (db : Db) (id token userid : Int) : Db :=
  { db with sess :=
      db.sess.filter (fun s => !(s.id == id && s.token == token && s.userid == userid)) }

/-- Modelled from the spec: the store contract create-session returns a
store-assigned generated session id (the id assignment lives in the external
store engine, not in src/main.c); modelled as one more than the largest
existing session id, which is always fresh. -/
def newSessId (db : Db) : Int :=
  (db.sess.map (fun s => s.id)).foldr max 0 + 1

/-- STMT_SESS_NEW followed by ksql_lastid: insert the row and report the
generated id. -/
def stmt_sess_new (db : Db) (token userid : Int) : Db × Int :=
  ({ db with sess := db.sess ++ [⟨newSessId db, token, userid⟩] }, newSessId db)

/-- STMT_USER_MOD_EMAIL: UPDATE user SET email=? WHERE id=?. The UNIQUE
constraint on email fires exactly when another row already holds the address;
a constraint violation leaves the store unchanged. Returns the new store and
whether the constraint fired (KSQL_CONSTRAINT). -/
def stmt_user_mod_email (db : Db) (email : String) (id : Int) : Db × Bool :=
  if db.users.any (fun w => w.email == email && w.id != id) then
    (db, true)
  else
    ({ db with users :=
        db.users.map (fun w => if w.id = id then { w with email := email } else w) },
     false)

/-- STMT_USER_MOD_HASH: UPDATE user SET hash=? WHERE id=?. -/
def stmt_user_mod_hash (db : Db) (hash : String) (id : Int) : Db :=
  { db with users :=
      db.users.map (fun w => if w.id = id then { w with hash := hash } else w) }

/-- Password comparison of db_user_find on non-OpenBSD builds:
rc = 0 == strcmp(hash, pass), a plain string equality. -/
def checkpass_fallback (hash pass : String) : Bool :=
  hash == pass

/-- db_user_find, parametrized by the password verification primitive: on
OpenBSD the source uses crypt_checkpass, otherwise checkpass_fallback. Looks
up the row by email, then accepts exactly when the check succeeds; the hash
never leaves this function. -/
def db_user_find (check : String → String → Bool) (db : Db)
    (email pass : String) : Option User :=
  match stmt_user_lookup db email with
  | none => none
  | some row => if check row.hash pass then some (userOfRow row) else none

/-- db_sess_resolve: if either argument is the absent sentinel -1 the
function returns NULL before any statement is allocated; otherwise it runs
the single STMT_SESS_GET join. The second component traces store access. -/
def db_sess_resolve (db : Db) (id token : Int) : Option User × List StoreOp :=
  if id = -1 ∨ token = -1 then (none, [])
  else (stmt_sess_get db id token, [StoreOp.sessGet id token])

/-- db_sess_del: runs STMT_SESS_DEL binding id, token and the id of the
calling user. -/
def db_sess_del (db : Db) (u : User) (id token : Int) : Db :=
  stmt_sess_del db id token u.id

/-- db_sess_new: runs STMT_SESS_NEW with the token and the id of the user,
then reads back the generated session id. -/
def db_sess_new (db : Db) (token : Int) (u : User) : Db × Int :=
  stmt_sess_new db token u.id

/-- db_user_mod_email: runs STMT_USER_MOD_EMAIL; the int result is true
exactly when no constraint fired (KSQL_CONSTRAINT != c). -/
def db_user_mod_email (db : Db) (u : User) (email : String) : Db × Bool :=
  ((stmt_user_mod_email db email u.id).1, !(stmt_user_mod_email db email u.id).2)

/-- db_user_mod_pass, parametrized by the hashing primitive: crypt_newhash on
OpenBSD, a plain copy otherwise. Runs STMT_USER_MOD_HASH. -/
def db_user_mod_pass (newhash : String → String) (db : Db) (u : User)
    (pass : String) : Db :=
  stmt_user_mod_hash db (newhash pass) u.id

/-- One Set-Cookie directive as formatted by sendlogin and sendlogout:
name=value; HttpOnly; path=/; expires=...; with an optional secure attribute
from the SECURE compile switch. The expires date string produced by
kutil_epoch2str is kept as its epoch argument. A none value models the empty
value emitted on logout. -/
structure SetCookie where
  name : String
  value : Option Int
  httpOnly : Bool
  path : String
  secure : Bool
  expires : Int
deriving Repr, DecidableEq

/-- Result of running one page handler: HTTP status, Set-Cookie directives,
the store state afterwards, and the trace of store statements the handler
itself executed. -/
structure HResult where
  status : Nat
  cookies : List SetCookie
  db : Db
  trace : List StoreOp
deriving Repr, DecidableEq

/-- Seconds in the login cookie lifetime: 60 * 60 * 24 * 365. -/
def yearSeconds : Int := 60 * 60 * 24 * 365

/-- sendlogin: missing email or pass field raises 400; a failed
db_user_find raises 400; on success a session is created and the stok and
sid cookies are set, HttpOnly, path=/, expiring one year from now. -/
def sendlogin (check : String → String → Bool) (sec : Bool) (db : Db)
    (now token : Int) (emailField passField : Option String) : HResult :=
  match emailField, passField with
  | some email, some pass =>
    match db_user_find check db email pass with
    | none => ⟨400, [], db, [StoreOp.userLookup email]⟩
    | some u =>
      ⟨200,
       [⟨"stok", some token, true, "/", sec, now + yearSeconds⟩,
        ⟨"sid", some (db_sess_new db token u).2, true, "/", sec,
         now + yearSeconds⟩],
       (db_sess_new db token u).1,
       [StoreOp.userLookup email, StoreOp.sessNew token u.id]⟩
  | _, _ => ⟨400, [], db, []⟩

/-- sendlogout: sets the stok and sid cookies to the empty value expiring at
epoch 0, then deletes the session named by the request cookies for the
resolved user. -/
def sendlogout (sec : Bool) (db : Db) (u : User) (sid stok : Int) : HResult :=
  ⟨200,
   [⟨"stok", none, true, "/", sec, 0⟩,
    ⟨"sid", none, true, "/", sec, 0⟩],
   db_sess_del db u sid stok,
   [StoreOp.sessDel sid stok u.id]⟩

/-- sendmodemail: a missing email field raises 400 with no store access;
otherwise db_user_mod_email runs and its result picks 200 or 400. -/
def sendmodemail (db : Db) (u : User) (emailField : Option String) : HResult :=
  match emailField with
  | some email =>
    ⟨if (db_user_mod_email db u email).2 then 200 else 400, [],
     (db_user_mod_email db u email).1, [StoreOp.userModEmail email u.id]⟩
  | none => ⟨400, [], db, []⟩

/-- sendmodpass: a missing pass field raises 400 with no store access;
otherwise the password is re-hashed and stored with status 200. -/
def sendmodpass (newhash : String → String) (db : Db) (u : User)
    (passField : Option String) : HResult :=
  match passField with
  | some pass =>
    ⟨200, [], db_user_mod_pass newhash db u pass,
     [StoreOp.userModHash (newhash pass) u.id]⟩
  | none => ⟨400, [], db, []⟩

/-- Request methods; kcgi exposes more, the gate only admits get and post,
so the rest collapse to two representatives. -/
inductive Method where
  | get
  | post
  | delete
  | other
deriving Repr, DecidableEq

/-- The five pages of enum page; an unrecognized path (PAGE__MAX) is a none
in the Request. -/
inductive Page where
  | index
  | login
  | logout
  | userModEmail
  | userModPass
deriving Repr, DecidableEq

/-- Response representations; the gate only admits KMIME_APP_JSON. -/
inductive Mime where
  | appJson
  | other
deriving Repr, DecidableEq

/-- The request as khttp_parse hands it to main: method, recognized page or
none, mime, the two validated integer cookies when present, and the two
validated form fields when present. -/
structure Request where
  method : Method
  page : Option Page
  mime : Mime
  cookieSid : Option Int
  cookieStok : Option Int
  fieldEmail : Option String
  fieldPass : Option String
deriving Repr, DecidableEq

/-- Outcome of the authorization gate in main: a rejection with a status and
no handler run, or a handler run for a page with the resolved user. -/
inductive GateResult where
  | rejected (status : Nat)
  | handled (p : Page) (u : Option User)
deriving Repr, DecidableEq

/-- Cookie extraction in main: NULL != r.cookiemap[k] ? parsed.i : -1. -/
def cookieOr (c : Option Int) : Int :=
  c.getD (-1)

/-- The authorization gate of main: 405 unless the method is GET or POST,
then 404 on an unrecognized page or a non-JSON mime, then the session is
resolved from the cookie pair and every page but login demands a user. -/
def main_gate (req : Request) (db : Db) : GateResult :=
  if ¬(req.method = Method.get ∨ req.method = Method.post) then
    GateResult.rejected 405
  else
    match req.page with
    | none => GateResult.rejected 404
    | some p =>
      if ¬(req.mime = Mime.appJson) then GateResult.rejected 404
      else
        if p ≠ Page.login ∧
            (db_sess_resolve db (cookieOr req.cookieSid)
              (cookieOr req.cookieStok)).1 = none then
          GateResult.rejected 403
        else
          GateResult.handled p
            (db_sess_resolve db (cookieOr req.cookieSid)
              (cookieOr req.cookieStok)).1

/-- Helper: the join of STMT_SESS_GET over explicit lists, so that facts
about it can be proved by induction. Definitionally the body of
sess_get_rows. -/
def joinRows (users : List UserRow) (l : List SessRow) (id token : Int) :
    List User :=
  (l.filter (fun s => s.id == id && s.token == token)).filterMap
    (fun s => (users.find? (fun w => w.id == s.userid)).map userOfRow)

lemma sess_get_rows_eq_joinRows (db : Db) (id token : Int) :
    sess_get_rows db id token = joinRows db.users db.sess id token := rfl

lemma joinRows_head_some (users : List UserRow) (l : List SessRow)
    (id token : Int) (u : User)
    (h : (joinRows users l id token).head? = some u) :
    ∃ s ∈ l, s.id = id ∧ s.token = token ∧
      ∃ w, users.find? (fun w2 => w2.id == s.userid) = some w ∧
        u = userOfRow w := by
  induction l with
  | nil => simp [joinRows] at h
  | cons t rest ih =>
    rw [joinRows, List.filter_cons] at h
    by_cases ht : (t.id == id && t.token == token) = true
    · rw [if_pos ht, List.filterMap_cons] at h
      cases hw : users.find? (fun w => w.id == t.userid) with
      | none =>
        rw [hw] at h
        simp only [Option.map_none'] at h
        obtain ⟨s, hs, h2⟩ := ih h
        exact ⟨s, List.mem_cons_of_mem _ hs, h2⟩
      | some w =>
        rw [hw] at h
        simp only [Option.map_some', List.head?_cons, Option.some.injEq] at h
        have ht2 : t.id = id ∧ t.token = token := by simpa using ht
        exact ⟨t, List.mem_cons_self _ _, ht2.1, ht2.2, w, hw, h.symm⟩
    · rw [if_neg ht] at h
      obtain ⟨s, hs, h2⟩ := ih h
      exact ⟨s, List.mem_cons_of_mem _ hs, h2⟩

lemma joinRows_head_of_mem (users : List UserRow) (l : List SessRow)
    (id token : Int) (s : SessRow) (w : UserRow)
    (hnd : (l.map SessRow.id).Nodup)
    (hmem : s ∈ l) (hid : s.id = id) (htok : s.token = token)
    (hw : users.find? (fun w2 => w2.id == s.userid) = some w) :
    (joinRows users l id token).head? = some (userOfRow w) := by
  induction l with
  | nil => cases hmem
  | cons t rest ih =>
    rw [List.map_cons, List.nodup_cons] at hnd
    rcases List.mem_cons.1 hmem with rfl | hmem2
    · rw [joinRows, List.filter_cons,
        if_pos (by simp [hid, htok]), List.filterMap_cons, hw]
      simp
    · have htne : ¬(t.id == id && t.token == token) = true := by
        intro hcontra
        have h1 : t.id = id := by
          have h2 := (by simpa using hcontra : t.id = id ∧ t.token = token)
          exact h2.1
        have hsm : s.id ∈ List.map SessRow.id rest :=
          List.mem_map_of_mem SessRow.id hmem2
        apply hnd.1
        rw [h1, ← hid]
        exact hsm
      rw [joinRows, List.filter_cons, if_neg htne]
      exact ih hnd.2 hmem2

lemma joinRows_head_none (users : List UserRow) (l : List SessRow)
    (id token : Int)
    (h : ∀ s ∈ l, ¬(s.id = id ∧ s.token = token)) :
    (joinRows users l id token).head? = none := by
  have hf : l.filter (fun s => s.id == id && s.token == token) = [] := by
    rw [List.filter_eq_nil_iff]
    intro s hs
    simp only [Bool.and_eq_true, beq_iff_eq]
    exact fun hc => h s hs hc
  rw [joinRows, hf]
  rfl

/-- Claim C2: an unknown email and a known email with a wrong password give
the same failure result from db_user_find, so the two runs are
indistinguishable to the caller. -/
theorem verify_enumeration_safe (check : String → String → Bool) (db : Db)
    (e1 p1 e2 p2 : String) (row : UserRow)
    (h1 : ∀ w ∈ db.users, w.email ≠ e1)
    (h2 : stmt_user_lookup db e2 = some row)
    (h3 : check row.hash p2 = false) :
    db_user_find check db e1 p1 = db_user_find check db e2 p2 ∧
    db_user_find check db e1 p1 = none := by
  have hl1 : stmt_user_lookup db e1 = none := by
    rw [stmt_user_lookup, List.find?_eq_none]
    intro w hw
    simpa using h1 w hw
  have hone : db_user_find check db e1 p1 = none := by
    rw [db_user_find, hl1]
  have htwo : db_user_find check db e2 p2 = none := by
    rw [db_user_find, h2]
    simp [h3]
  exact ⟨hone.trans htwo.symm, hone⟩

/-- Claim C2 witness at a concrete store. -/
theorem verify_enumeration_safe_witness :
    (∀ w ∈ (Db.mk [⟨1, "a@x.org", "h0"⟩] []).users, w.email ≠ "b@x.org") ∧
    (stmt_user_lookup (Db.mk [⟨1, "a@x.org", "h0"⟩] []) "a@x.org" =
      some ⟨1, "a@x.org", "h0"⟩) ∧
    checkpass_fallback "h0" "wrong" = false ∧
    (db_user_find checkpass_fallback (Db.mk [⟨1, "a@x.org", "h0"⟩] [])
        "b@x.org" "p" =
      db_user_find checkpass_fallback (Db.mk [⟨1, "a@x.org", "h0"⟩] [])
        "a@x.org" "wrong" ∧
     db_user_find checkpass_fallback (Db.mk [⟨1, "a@x.org", "h0"⟩] [])
        "b@x.org" "p" = none) :=
  ⟨by decide, by decide, by decide,
   verify_enumeration_safe checkpass_fallback _ "b@x.org" "p" "a@x.org"
     "wrong" ⟨1, "a@x.org", "h0"⟩ (by decide) (by decide) (by decide)⟩

/-- Claim C5: on the failing input, the non-OpenBSD branch of db_user_find
accepts the stored column value itself as the password, because the
comparison is the plain string equality of checkpass_fallback; a vetted
verification primitive would never accept the stored value verbatim. The
same store rejects a password differing from the stored value only by
hashing. -/
theorem verify_fallback_is_plain_equality :
    db_user_find checkpass_fallback (Db.mk [⟨1, "a@b.c", "hunter2"⟩] [])
      "a@b.c" "hunter2" = some ⟨1, "a@b.c"⟩ ∧
    (∀ hash pass : String, checkpass_fallback hash pass = (hash == pass)) := by
  exact ⟨by decide, fun hash pass => rfl⟩

/-- Claim C6: deleting twice with identical arguments leaves the store of
the first delete unchanged, and the second call matches zero rows; the
operation is total, so a delete matching nothing completes normally. -/
theorem sess_delete_idempotent (db : Db) (u : User) (id token : Int) :
    db_sess_del (db_sess_del db u id token) u id token =
      db_sess_del db u id token ∧
    (db_sess_del db u id token).sess.filter
      (fun s => s.id == id && s.token == token && s.userid == u.id) = [] := by
  constructor
  · rw [db_sess_del, db_sess_del, stmt_sess_del, stmt_sess_del]
    simp only [List.filter_filter]
    congr 1
    apply List.filter_congr
    intro s _
    cases s.id == id <;> cases s.token == token <;> cases s.userid == u.id <;> rfl
  · rw [db_sess_del, stmt_sess_del]
    simp only [List.filter_filter, List.filter_eq_nil_iff]
    intro s _
    cases s.id == id <;> cases s.token == token <;> cases s.userid == u.id <;>
      simp

/-- Claim C8: a changeEmail submission lacking the email field and a
changePassword submission lacking the pass field are both rejected with 400,
with an empty store trace and the store unchanged. -/
theorem mutators_reject_missing_field (newhash : String → String) (db : Db)
    (u : User) :
    sendmodemail db u none = ⟨400, [], db, []⟩ ∧
    sendmodpass newhash db u none = ⟨400, [], db, []⟩ :=
  ⟨rfl, rfl⟩

/-- Claim C1: the authorization gate decides in order: 405 when the method
is neither GET nor POST; otherwise 404 when the page is unrecognized or the
format is not JSON; otherwise the session is resolved from the cookie pair,
every page other than login with no resolved user is rejected 403 with no
handler run, and a login request proceeds to its handler regardless of the
resolution outcome. -/
theorem gate_decision_order (req : Request) (db : Db) :
    (¬(req.method = Method.get ∨ req.method = Method.post) →
      main_gate req db = GateResult.rejected 405) ∧
    ((req.method = Method.get ∨ req.method = Method.post) →
      (req.page = none ∨ req.mime ≠ Mime.appJson) →
      main_gate req db = GateResult.rejected 404) ∧
    (∀ p : Page, (req.method = Method.get ∨ req.method = Method.post) →
      req.page = some p → req.mime = Mime.appJson → p ≠ Page.login →
      (db_sess_resolve db (cookieOr req.cookieSid)
        (cookieOr req.cookieStok)).1 = none →
      main_gate req db = GateResult.rejected 403) ∧
    ((req.method = Method.get ∨ req.method = Method.post) →
      req.page = some Page.login → req.mime = Mime.appJson →
      main_gate req db = GateResult.handled Page.login
        (db_sess_resolve db (cookieOr req.cookieSid)
          (cookieOr req.cookieStok)).1) ∧
    (∀ (p : Page) (u : User),
      (req.method = Method.get ∨ req.method = Method.post) →
      req.page = some p → req.mime = Mime.appJson →
      (db_sess_resolve db (cookieOr req.cookieSid)
        (cookieOr req.cookieStok)).1 = some u →
      main_gate req db = GateResult.handled p (some u)) := by
  refine ⟨?_, ?_, ?_, ?_, ?_⟩
  · intro h
    rw [main_gate, if_pos h]
  · intro hm hpm
    rw [main_gate, if_neg (not_not_intro hm)]
    rcases hpm with hp | hmime
    · rw [hp]
    · cases hpage : req.page with
      | none => rfl
      | some p =>
        dsimp only
        rw [if_pos hmime]
  · intro p hm hp hmime hpl hres
    rw [main_gate, if_neg (not_not_intro hm), hp]
    dsimp only
    rw [if_neg (not_not_intro hmime), if_pos ⟨hpl, hres⟩]
  · intro hm hp hmime
    rw [main_gate, if_neg (not_not_intro hm), hp]
    dsimp only
    rw [if_neg (not_not_intro hmime),
      if_neg (fun hc => hc.1 rfl)]
  · intro p u hm hp hmime hres
    rw [main_gate, if_neg (not_not_intro hm), hp]
    dsimp only
    rw [if_neg (not_not_intro hmime),
      if_neg (fun hc => by rw [hres] at hc; exact Option.noConfusion hc.2),
      hres]

/-- Claim C1 witness: a DELETE request is method-not-allowed on an empty
store. -/
theorem gate_decision_order_witness :
    ¬(Method.delete = Method.get ∨ Method.delete = Method.post) ∧
    main_gate
      ⟨Method.delete, some Page.index, Mime.appJson, none, none, none, none⟩
      (Db.mk [] []) = GateResult.rejected 405 :=
  ⟨by decide,
   (gate_decision_order
     ⟨Method.delete, some Page.index, Mime.appJson, none, none, none, none⟩
     (Db.mk [] [])).1 (by decide)⟩

/-- Claim C4: when another account holds the requested address, the email
change raises 400, leaves the store untouched, and the visible response
(status and cookies) is the same whatever other store produced the conflict,
so it reveals nothing about the holder of the address. -/
theorem changeemail_conflict_preserves (db : Db) (u : User) (email : String)
    (hconf : db.users.any (fun w => w.email == email && w.id != u.id) = true) :
    (sendmodemail db u (some email)).status = 400 ∧
    (sendmodemail db u (some email)).db = db ∧
    ∀ db2 : Db,
      db2.users.any (fun w => w.email == email && w.id != u.id) = true →
      (sendmodemail db u (some email)).status =
        (sendmodemail db2 u (some email)).status ∧
      (sendmodemail db u (some email)).cookies =
        (sendmodemail db2 u (some email)).cookies := by
  have key : ∀ db1 : Db,
      db1.users.any (fun w => w.email == email && w.id != u.id) = true →
      sendmodemail db1 u (some email) =
        ⟨400, [], db1, [StoreOp.userModEmail email u.id]⟩ := by
    intro db1 h1
    simp [sendmodemail, db_user_mod_email, stmt_user_mod_email, h1]
  refine ⟨?_, ?_, ?_⟩
  · rw [key db hconf]
  · rw [key db hconf]
  · intro db2 h2
    rw [key db hconf, key db2 h2]
    exact ⟨rfl, rfl⟩

/-- Claim C4 witness: changing the second account to the first account of a
two-user store raises 400 and leaves the store unchanged. -/
theorem changeemail_conflict_preserves_witness :
    ((Db.mk [⟨1, "a@x.org", "h1"⟩, ⟨2, "b@x.org", "h2"⟩] []).users.any
      (fun w => w.email == "a@x.org" && w.id != (2 : Int)) = true) ∧
    ((sendmodemail (Db.mk [⟨1, "a@x.org", "h1"⟩, ⟨2, "b@x.org", "h2"⟩] [])
        ⟨2, "b@x.org"⟩ (some "a@x.org")).status = 400 ∧
     (sendmodemail (Db.mk [⟨1, "a@x.org", "h1"⟩, ⟨2, "b@x.org", "h2"⟩] [])
        ⟨2, "b@x.org"⟩ (some "a@x.org")).db =
       Db.mk [⟨1, "a@x.org", "h1"⟩, ⟨2, "b@x.org", "h2"⟩] []) :=
  ⟨by decide,
   (changeemail_conflict_preserves
     (Db.mk [⟨1, "a@x.org", "h1"⟩, ⟨2, "b@x.org", "h2"⟩] [])
     ⟨2, "b@x.org"⟩ "a@x.org" (by decide)).1,
   (changeemail_conflict_preserves
     (Db.mk [⟨1, "a@x.org", "h1"⟩, ⟨2, "b@x.org", "h2"⟩] [])
     ⟨2, "b@x.org"⟩ "a@x.org" (by decide)).2.1⟩

/-- Claim C10: when the gate admits the logout page, both session cookies
were present in the request and a user was resolved, so the unguarded cookie
reads of sendlogout never touch an absent entry. -/
theorem logout_handler_cookies_present (req : Request) (db : Db)
    (ou : Option User)
    (h : main_gate req db = GateResult.handled Page.logout ou) :
    req.cookieSid.isSome ∧ req.cookieStok.isSome ∧ ou.isSome := by
  rw [main_gate] at h
  by_cases hm : ¬(req.method = Method.get ∨ req.method = Method.post)
  · rw [if_pos hm] at h
    exact absurd h (by simp)
  · rw [if_neg hm] at h
    cases hpage : req.page with
    | none =>
      rw [hpage] at h
      exact absurd h (by simp)
    | some p =>
      rw [hpage] at h
      dsimp only at h
      by_cases hmime : ¬(req.mime = Mime.appJson)
      · rw [if_pos hmime] at h
        exact absurd h (by simp)
      · rw [if_neg hmime] at h
        by_cases hcond : p ≠ Page.login ∧
            (db_sess_resolve db (cookieOr req.cookieSid)
              (cookieOr req.cookieStok)).1 = none
        · rw [if_pos hcond] at h
          exact absurd h (by simp)
        · rw [if_neg hcond] at h
          injection h with h1 h2
          subst h1
          have hres : (db_sess_resolve db (cookieOr req.cookieSid)
              (cookieOr req.cookieStok)).1 ≠ none := by
            intro hn
            exact hcond ⟨by simp, hn⟩
          rw [db_sess_resolve] at hres
          by_cases hs : cookieOr req.cookieSid = -1 ∨
              cookieOr req.cookieStok = -1
          · rw [if_pos hs] at hres
            exact absurd rfl hres
          · push_neg at hs
            refine ⟨?_, ?_, ?_⟩
            · cases hc : req.cookieSid with
              | none => exact absurd (by rw [hc]; rfl) hs.1
              | some v => rfl
            · cases hc : req.cookieStok with
              | none => exact absurd (by rw [hc]; rfl) hs.2
              | some v => rfl
            · rw [← h2, db_sess_resolve]
              rw [if_neg (by push_neg; exact hs)] at hres ⊢
              exact Option.isSome_iff_ne_none.2 hres

/-- Claim C10 witness: a logout request with both cookies present and a
matching session reaches the handler with all entries present. -/
theorem logout_handler_cookies_present_witness :
    main_gate
      ⟨Method.get, some Page.logout, Mime.appJson, some 5, some 9, none, none⟩
      (Db.mk [⟨1, "a@x.org", "h1"⟩] [⟨5, 9, 1⟩]) =
      GateResult.handled Page.logout (some ⟨1, "a@x.org"⟩) ∧
    ((some (5 : Int)).isSome ∧ (some (9 : Int)).isSome ∧
      (some (User.mk 1 "a@x.org")).isSome) :=
  ⟨by decide,
   logout_handler_cookies_present
     ⟨Method.get, some Page.logout, Mime.appJson, some 5, some 9, none, none⟩
     (Db.mk [⟨1, "a@x.org", "h1"⟩] [⟨5, 9, 1⟩]) (some ⟨1, "a@x.org"⟩)
     (by decide)⟩

/-- Claim C3: with distinct session ids, a delete naming a live session of
user A but asserting the id of a different user B removes nothing, resolve
still returns A afterwards, and the delete asserting the owning id does
remove the row. -/
theorem sess_delete_requires_owner (db : Db) (A B : User) (s : SessRow)
    (hids : (db.sess.map SessRow.id).Nodup)
    (hmem : s ∈ db.sess) (hown : s.userid = A.id) (hne : B.id ≠ A.id)
    (hres : (db_sess_resolve db s.id s.token).1 = some A) :
    db_sess_del db B s.id s.token = db ∧
    (db_sess_resolve (db_sess_del db B s.id s.token) s.id s.token).1 =
      some A ∧
    s ∉ (db_sess_del db A s.id s.token).sess := by
  have hdel : db_sess_del db B s.id s.token = db := by
    rw [db_sess_del, stmt_sess_del]
    have hkeep : db.sess.filter
        (fun t => !(t.id == s.id && t.token == s.token && t.userid == B.id)) =
        db.sess := by
      rw [List.filter_eq_self]
      intro t ht
      cases hb : (t.id == s.id && t.token == s.token && t.userid == B.id) with
      | false => rfl
      | true =>
        exfalso
        have hb2 : (t.id = s.id ∧ t.token = s.token) ∧ t.userid = B.id := by
          simpa using hb
        have hts : t = s :=
          List.inj_on_of_nodup_map hids ht hmem hb2.1.1
        apply hne
        rw [← hb2.2, hts, hown]
    rw [hkeep]
  refine ⟨hdel, ?_, ?_⟩
  · rw [hdel]
    exact hres
  · intro hcon
    have hp := (List.mem_filter.1 hcon).2
    simp [hown] at hp

/-- Claim C3 witness at a concrete one-user, one-session store. -/
theorem sess_delete_requires_owner_witness :
    ((Db.mk [⟨1, "a@x.org", "h1"⟩] [⟨5, 9, 1⟩]).sess.map SessRow.id).Nodup ∧
    (⟨5, 9, 1⟩ : SessRow) ∈ (Db.mk [⟨1, "a@x.org", "h1"⟩] [⟨5, 9, 1⟩]).sess ∧
    (db_sess_del (Db.mk [⟨1, "a@x.org", "h1"⟩] [⟨5, 9, 1⟩]) ⟨2, "b@x.org"⟩
        5 9 = Db.mk [⟨1, "a@x.org", "h1"⟩] [⟨5, 9, 1⟩] ∧
      (db_sess_resolve (db_sess_del (Db.mk [⟨1, "a@x.org", "h1"⟩] [⟨5, 9, 1⟩])
          ⟨2, "b@x.org"⟩ 5 9) 5 9).1 = some ⟨1, "a@x.org"⟩ ∧
      (⟨5, 9, 1⟩ : SessRow) ∉
        (db_sess_del (Db.mk [⟨1, "a@x.org", "h1"⟩] [⟨5, 9, 1⟩])
          ⟨1, "a@x.org"⟩ 5 9).sess) :=
  ⟨by decide, by decide,
   sess_delete_requires_owner (Db.mk [⟨1, "a@x.org", "h1"⟩] [⟨5, 9, 1⟩])
     ⟨1, "a@x.org"⟩ ⟨2, "b@x.org"⟩ ⟨5, 9, 1⟩
     (by decide) (by decide) (by decide) (by decide) (by decide)⟩

/-- Claim C7: resolve short-circuits to none with an empty store trace when
either argument is the absent sentinel -1; otherwise it runs exactly the one
join statement and returns a user exactly when a session row matches both id
and token and its owner is found in the user table. -/
theorem resolve_sentinel_and_join (db : Db) (id token : Int)
    (hids : (db.sess.map SessRow.id).Nodup) :
    ((id = -1 ∨ token = -1) → db_sess_resolve db id token = (none, [])) ∧
    (¬(id = -1 ∨ token = -1) →
      (db_sess_resolve db id token).2 = [StoreOp.sessGet id token] ∧
      ∀ u : User,
        (db_sess_resolve db id token).1 = some u ↔
          ∃ s ∈ db.sess, s.id = id ∧ s.token = token ∧
            ∃ w, db.users.find? (fun w2 => w2.id == s.userid) = some w ∧
              u = userOfRow w) := by
  constructor
  · intro h
    rw [db_sess_resolve, if_pos h]
  · intro h
    rw [db_sess_resolve, if_neg h]
    refine ⟨rfl, fun u => ⟨?_, ?_⟩⟩
    · intro hsome
      exact joinRows_head_some db.users db.sess id token u hsome
    · rintro ⟨s, hs, hid2, htok2, w, hw, hu⟩
      subst hu
      exact joinRows_head_of_mem db.users db.sess id token s w hids hs
        hid2 htok2 hw

/-- Claim C7 witness at a concrete store, with non-sentinel arguments. -/
theorem resolve_sentinel_and_join_witness :
    ((Db.mk [⟨1, "a@x.org", "h1"⟩] [⟨5, 9, 1⟩]).sess.map SessRow.id).Nodup ∧
    ¬((5 : Int) = -1 ∨ (9 : Int) = -1) ∧
    ((db_sess_resolve (Db.mk [⟨1, "a@x.org", "h1"⟩] [⟨5, 9, 1⟩]) 5 9).2 =
        [StoreOp.sessGet 5 9] ∧
      ∀ u : User,
        (db_sess_resolve (Db.mk [⟨1, "a@x.org", "h1"⟩] [⟨5, 9, 1⟩]) 5 9).1 =
            some u ↔
          ∃ s ∈ (Db.mk [⟨1, "a@x.org", "h1"⟩] [⟨5, 9, 1⟩]).sess,
            s.id = 5 ∧ s.token = 9 ∧
            ∃ w, (Db.mk [⟨1, "a@x.org", "h1"⟩] [⟨5, 9, 1⟩]).users.find?
                (fun w2 => w2.id == s.userid) = some w ∧
              u = userOfRow w) :=
  ⟨by decide, by decide,
   (resolve_sentinel_and_join (Db.mk [⟨1, "a@x.org", "h1"⟩] [⟨5, 9, 1⟩]) 5 9
     (by decide)).2 (by decide)⟩

/-- Claim C9: a successful login carries exactly the stok and sid cookies,
HttpOnly with path=/ and expiry one year from now, and creates the session
row; a logout carries the same two cookies with the epoch expiry, and, when
the logout follows a successful resolve over distinct session ids, a
subsequent resolve of the same pair returns none. -/
theorem login_logout_cookie_lifecycle
    (check : String → String → Bool) (sec : Bool) (db db2 : Db)
    (now token sid stok : Int) (email pass : String) (u u2 : User)
    (hlogin : db_user_find check db email pass = some u)
    (hids : (db2.sess.map SessRow.id).Nodup)
    (hres : (db_sess_resolve db2 sid stok).1 = some u2) :
    sendlogin check sec db now token (some email) (some pass) =
      ⟨200,
       [⟨"stok", some token, true, "/", sec, now + yearSeconds⟩,
        ⟨"sid", some (newSessId db), true, "/", sec, now + yearSeconds⟩],
       { db with sess := db.sess ++ [⟨newSessId db, token, u.id⟩] },
       [StoreOp.userLookup email, StoreOp.sessNew token u.id]⟩ ∧
    (sendlogout sec db2 u2 sid stok).cookies =
      [⟨"stok", none, true, "/", sec, 0⟩,
       ⟨"sid", none, true, "/", sec, 0⟩] ∧
    (db_sess_resolve (sendlogout sec db2 u2 sid stok).db sid stok).1 =
      none := by
  refine ⟨?_, rfl, ?_⟩
  · simp [sendlogin, hlogin, db_sess_new, stmt_sess_new]
  · have hsent : ¬(sid = -1 ∨ stok = -1) := by
      intro hs
      rw [db_sess_resolve, if_pos hs] at hres
      exact Option.noConfusion hres
    rw [db_sess_resolve, if_neg hsent] at hres
    obtain ⟨s, hs, hsid, hstok, w, hw, hu2⟩ :=
      joinRows_head_some db2.users db2.sess sid stok u2 hres
    have hwid : w.id = s.userid := by
      have := List.find?_some hw
      simpa using this
    have huid : u2.id = s.userid := by
      rw [hu2, userOfRow, hwid]
    rw [db_sess_resolve, if_neg hsent]
    have hall : ∀ t ∈ (sendlogout sec db2 u2 sid stok).db.sess,
        ¬(t.id = sid ∧ t.token = stok) := by
      intro t ht hcon
      have hmf := List.mem_filter.1 ht
      have hts : t = s :=
        List.inj_on_of_nodup_map hids hmf.1 hs (hcon.1.trans hsid.symm)
      have hp := hmf.2
      rw [hts] at hp
      simp [hsid, hstok, huid.symm] at hp
    exact joinRows_head_none db2.users (sendlogout sec db2 u2 sid stok).db.sess
      sid stok hall

/-- Claim C9 witness: a concrete login followed by a logout with the issued
pair, after which resolve returns none. -/
theorem login_logout_cookie_lifecycle_witness :
    db_user_find checkpass_fallback (Db.mk [⟨1, "a@x.org", "pw"⟩] [])
      "a@x.org" "pw" = some ⟨1, "a@x.org"⟩ ∧
    ((Db.mk [⟨1, "a@x.org", "pw"⟩] [⟨5, 9, 1⟩]).sess.map SessRow.id).Nodup ∧
    (db_sess_resolve (Db.mk [⟨1, "a@x.org", "pw"⟩] [⟨5, 9, 1⟩]) 5 9).1 =
      some ⟨1, "a@x.org"⟩ ∧
    (db_sess_resolve
      (sendlogout false (Db.mk [⟨1, "a@x.org", "pw"⟩] [⟨5, 9, 1⟩])
        ⟨1, "a@x.org"⟩ 5 9).db 5 9).1 = none :=
  ⟨by decide, by decide, by decide,
   (login_logout_cookie_lifecycle checkpass_fallback false
     (Db.mk [⟨1, "a@x.org", "pw"⟩] [])
     (Db.mk [⟨1, "a@x.org", "pw"⟩] [⟨5, 9, 1⟩])
     0 9 5 9 "a@x.org" "pw" ⟨1, "a@x.org"⟩ ⟨1, "a@x.org"⟩
     (by decide) (by decide) (by decide)).2.2⟩

end KcgiFramework
